import Mathlib

/-!
Verification of the read-router in `src/server/requests/get.ts` of
vite-plugin-fs.  The handler resolves a path, stats it, branches on the
optional `command` query parameter, and shapes a response envelope onto
HTTP status + body.

Embedding choices:
* Filesystem outcomes for the one resolved path of a request are packaged
  in an `FS` structure: the result of `fs.stat`, `fs.readFile`,
  `fs.readdir` and `fs.readdir(..., withFileTypes)`.  Each is an
  `Except FsError _` - a thrown Node error carries a string `code`
  (the handler tests `err.code === 'ENOENT'`).
* `await`ed rejections propagate to the single try/catch of the handler;
  in the embedding every intermediate function returns `Except FsError _`
  and `handle` maps the error exactly as the catch block does.
* File contents are a list of bytes (a Node `Buffer`).
-/

/-- A thrown filesystem error; the handler only ever inspects `err.code`. -/
structure FsError where
  code : String
deriving Repr, DecidableEq

/-- The parts of a Node `fs.Stats` the router uses: the two type
predicates `isFile()` / `isDirectory()` plus metadata fields (stand-ins
for size, timestamps, ...). -/
structure Stats where
  isFile : Bool
  isDirectory : Bool
  size : Nat
  mtimeMs : Nat
deriving Repr, DecidableEq

/-- A Node `fs.Dirent` as used by `readIfDir`: a name and the two type
predicates the filter consults.  Entry kinds that are neither (sockets,
FIFOs, ...) have both flags false. -/
structure Dirent where
  name : String
  isFile : Bool
  isDirectory : Bool
deriving Repr, DecidableEq

/-- `type SimpleDirent = { name: string; dir: boolean; }` -/
structure SimpleDirent where
  name : String
  dir : Bool
deriving Repr, DecidableEq

/-- `type SimpleStats = Stats & { dir: boolean; }` -/
structure SimpleStats extends Stats where
  dir : Bool
deriving Repr, DecidableEq

/-- `items: string[] | SimpleDirent[]` of `DirResponse`. -/
inductive DirItems where
  | names (items : List String)
  | detailed (items : List SimpleDirent)
deriving Repr, DecidableEq

/-- `type ApiResponse = FileResponse | DirResponse | StatResponse | ErrorResponse`. -/
inductive ApiResponse where
  | file (data : List Nat)
  | dir (items : DirItems)
  | stats (stats : SimpleStats)
  | error (code : Nat) (message : Option String)
deriving Repr, DecidableEq

/-- The body Koa ends up sending: unset (`ctx.body` never assigned, or
assigned `undefined`), a structured envelope, or plain text. -/
inductive Body where
  | empty
  | envelope (response : ApiResponse)
  | text (message : String)
deriving Repr, DecidableEq

/-- The observable outcome on `ctx`: status code plus body. -/
structure HttpResponse where
  status : Nat
  body : Body
deriving Repr, DecidableEq

/-- Filesystem outcomes for the resolved path of one request: what
`fs.stat(path)`, `fs.readFile(path)`, `fs.readdir(path)` and
`fs.readdir(path, withFileTypes)` would yield. -/
structure FS where
  stat : Except FsError Stats
  readFile : Except FsError (List Nat)
  readdir : Except FsError (List String)
  readdirWithFileTypes : Except FsError (List Dirent)
deriving Repr

/-- One step of the `dirents.forEach` loop of `readIfDir`: build the
`SimpleDirent` and push it when the entry is a plain file or directory. -/
def detailedStep (items : List SimpleDirent) (d : Dirent) : List SimpleDirent :=
  if d.isFile || d.isDirectory then items ++ [⟨d.name, d.isDirectory⟩] else items

/-- The `items` array built by the `forEach` loop of `readIfDir` in
detailed mode. -/
def detailedItems (dirents : List Dirent) : List SimpleDirent :=
  dirents.foldl detailedStep []

/-- `readIfFile(path, stats)`: when the stats say regular file, read the
contents (a rejection propagates) and wrap them in a File envelope;
otherwise `null`. -/
def readIfFile (fs : FS) (stats : Stats) : Except FsError (Option ApiResponse) :=
  if stats.isFile then
    match fs.readFile with
    | .error e => .error e
    | .ok data => .ok (some (ApiResponse.file data))
  else .ok none

/-- `readIfDir(path, stats, detailed)`: when the stats say directory,
list the entries (plain names, or filtered `SimpleDirent`s in detailed
mode; a rejection propagates) in a Directory envelope; otherwise `null`.
The source gives `detailed` the default `false`; the embedding passes it
explicitly. -/
def readIfDir (fs : FS) (stats : Stats) (detailed : Bool) :
    Except FsError (Option ApiResponse) :=
  if stats.isDirectory then
    if !detailed then
      match fs.readdir with
      | .error e => .error e
      | .ok items => .ok (some (ApiResponse.dir (DirItems.names items)))
    else
      match fs.readdirWithFileTypes with
      | .error e => .error e
      | .ok dirents =>
          .ok (some (ApiResponse.dir (DirItems.detailed (detailedItems dirents))))
  else .ok none

/-- `statIfSupported(stats)`: a Stats envelope with the spread metadata
plus the derived `dir` flag when the path is a file or a directory,
`null` otherwise. -/
def statIfSupported (stats : Stats) : Option ApiResponse :=
  if stats.isFile || stats.isDirectory then
    some (ApiResponse.stats ⟨stats, stats.isDirectory⟩)
  else none

/-- The no-command branch:
`(await readIfFile(path, stats)) ?? (await readIfDir(path, stats))` -
file first, directory only when the file read gave `null`. -/
def noCommandResponse (fs : FS) (stats : Stats) : Except FsError (Option ApiResponse) :=
  match readIfFile fs stats with
  | .error e => .error e
  | .ok (some r) => .ok (some r)
  | .ok none => readIfDir fs stats false

/-- The command dispatch inside the try block (after a successful stat).
`if (ctx.query.command)` is a truthiness test: an absent parameter and an
empty-string parameter both take the no-command branch; any other string
is dispatched on equality, unrecognized values yielding the one Error
envelope the handler ever builds. -/
def generateResponse (fs : FS) (stats : Stats) (command : Option String) :
    Except FsError (Option ApiResponse) :=
  match command with
  | none => noCommandResponse fs stats
  | some c =>
    if c = "" then noCommandResponse fs stats
    else if c = "readfile" then readIfFile fs stats
    else if c = "readdir" then readIfDir fs stats false
    else if c = "readdir-detailed" then readIfDir fs stats true
    else if c = "stat" then .ok (statIfSupported stats)
    else .ok (some (ApiResponse.error 500 (some ("Unknown command " ++ c))))

/-- The whole `router.get(/.*/, ...)` handler on the resolved path.
The single try/catch wraps the stat and the subsequent read/list, so a
rejection from either lands in the same `err.code === 'ENOENT'` test;
the embedding applies that mapping to whichever step erred.  A non-null
non-error envelope yields 200 with the envelope as body; an Error
envelope yields its code with its message as plain-text body; `null`
yields a bare 500. -/
def handle (fs : FS) (command : Option String) : HttpResponse :=
  match fs.stat with
  | .error err =>
      if err.code = "ENOENT" then ⟨404, Body.empty⟩ else ⟨500, Body.empty⟩
  | .ok stats =>
    match generateResponse fs stats command with
    | .error err =>
        if err.code = "ENOENT" then ⟨404, Body.empty⟩ else ⟨500, Body.empty⟩
    | .ok none => ⟨500, Body.empty⟩
    | .ok (some response) =>
      match response with
      | ApiResponse.error code message =>
          ⟨code, match message with
                 | some m => Body.text m
                 | none => Body.empty⟩
      | r => ⟨200, Body.envelope r⟩

-- Concrete filesystem scenarios used by witnesses and counterexamples.

/-- Stats of a regular file. -/
def statsFile : Stats := ⟨true, false, 5, 42⟩

/-- Stats of a directory. -/
def statsDir : Stats := ⟨false, true, 0, 7⟩

/-- Stats of an object that is neither a file nor a directory (socket). -/
def statsOther : Stats := ⟨false, false, 0, 0⟩

/-- A readable regular file holding the bytes "hi". -/
def fsFile : FS := ⟨.ok statsFile, .ok [104, 105], .error ⟨"ENOTDIR"⟩, .error ⟨"ENOTDIR"⟩⟩

/-- A directory with a plain file `a.txt`, a subdirectory `sub` and a
socket `sock`. -/
def fsDir : FS :=
  ⟨.ok statsDir, .error ⟨"EISDIR"⟩,
   .ok ["a.txt", "sub", "sock"],
   .ok [⟨"a.txt", true, false⟩, ⟨"sub", false, true⟩, ⟨"sock", false, false⟩]⟩

/-- A path that does not exist: stat rejects with ENOENT. -/
def fsMissing : FS :=
  ⟨.error ⟨"ENOENT"⟩, .error ⟨"ENOENT"⟩, .error ⟨"ENOENT"⟩, .error ⟨"ENOENT"⟩⟩

/-- A path whose stat rejects for another reason (permissions). -/
def fsDenied : FS :=
  ⟨.error ⟨"EACCES"⟩, .error ⟨"EACCES"⟩, .error ⟨"EACCES"⟩, .error ⟨"EACCES"⟩⟩

/-- A stat-able object that is neither file nor directory. -/
def fsOther : FS :=
  ⟨.ok statsOther, .error ⟨"EINVAL"⟩, .error ⟨"ENOTDIR"⟩, .error ⟨"ENOTDIR"⟩⟩

/-- A regular file whose stat succeeds but whose read rejects. -/
def fsReadFail : FS :=
  ⟨.ok statsFile, .error ⟨"EACCES"⟩, .error ⟨"ENOTDIR"⟩, .error ⟨"ENOTDIR"⟩⟩

-- Helper lemmas about the readers.

/-- The forEach/push loop of detailed mode, started from any
accumulator, appends exactly the filtered-and-projected entries. -/
lemma foldl_detailedStep (l : List Dirent) (acc : List SimpleDirent) :
    l.foldl detailedStep acc =
      acc ++ (l.filter (fun d => d.isFile || d.isDirectory)).map
        (fun d => SimpleDirent.mk d.name d.isDirectory) := by
  induction l generalizing acc with
  | nil => simp
  | cons d l ih =>
      simp only [List.foldl_cons, List.filter_cons]
      by_cases hd : (d.isFile || d.isDirectory) = true
      · rw [ih, detailedStep, if_pos hd]
        simp [hd]
      · rw [ih, detailedStep, if_neg hd]
        simp [hd]

/-- Detailed items are the entries that are a plain file or plain
directory, in listing order, projected to (name, dir). -/
lemma detailedItems_eq_filter_map (l : List Dirent) :
    detailedItems l =
      (l.filter (fun d => d.isFile || d.isDirectory)).map
        (fun d => SimpleDirent.mk d.name d.isDirectory) := by
  rw [detailedItems, foldl_detailedStep]
  simp

/-- A non-null result of `readIfFile` is always a File envelope. -/
lemma readIfFile_ok_some (fs : FS) (stats : Stats) (r : ApiResponse)
    (h : readIfFile fs stats = .ok (some r)) : ∃ d, r = ApiResponse.file d := by
  unfold readIfFile at h
  split at h
  · split at h
    · simp at h
    · simp only [Except.ok.injEq, Option.some.injEq] at h
      exact ⟨_, h.symm⟩
  · simp at h

/-- A non-null result of `readIfDir` is always a Directory envelope. -/
lemma readIfDir_ok_some (fs : FS) (stats : Stats) (detailed : Bool) (r : ApiResponse)
    (h : readIfDir fs stats detailed = .ok (some r)) :
    ∃ items, r = ApiResponse.dir items := by
  unfold readIfDir at h
  split at h
  · split at h
    · split at h
      · simp at h
      · simp only [Except.ok.injEq, Option.some.injEq] at h
        exact ⟨_, h.symm⟩
    · split at h
      · simp at h
      · simp only [Except.ok.injEq, Option.some.injEq] at h
        exact ⟨_, h.symm⟩
  · simp at h

/-- A non-null result of `statIfSupported` is always a Stats envelope. -/
lemma statIfSupported_some (stats : Stats) (r : ApiResponse)
    (h : statIfSupported stats = some r) : ∃ s, r = ApiResponse.stats s := by
  unfold statIfSupported at h
  split at h
  · simp only [Option.some.injEq] at h
    exact ⟨_, h.symm⟩
  · simp at h

/-- The no-command fallback never yields an Error envelope. -/
lemma noCommandResponse_ok_some (fs : FS) (stats : Stats) (r : ApiResponse)
    (h : noCommandResponse fs stats = .ok (some r)) :
    (∃ d, r = ApiResponse.file d) ∨ (∃ items, r = ApiResponse.dir items) := by
  unfold noCommandResponse at h
  split at h
  · simp at h
  · rename_i r' heq
    simp only [Except.ok.injEq, Option.some.injEq] at h
    exact Or.inl (h ▸ readIfFile_ok_some fs stats r' heq)
  · exact Or.inr (readIfDir_ok_some fs stats false r h)

/-- The Error envelope only arises from the unknown-command branch, and
then carries code 500 and the message `Unknown command` plus the value. -/
lemma generateResponse_error_envelope (fs : FS) (stats : Stats) (cmd : Option String)
    (code : Nat) (msg : Option String)
    (h : generateResponse fs stats cmd = .ok (some (ApiResponse.error code msg))) :
    code = 500 ∧ ∃ c, cmd = some c ∧ msg = some ("Unknown command " ++ c) := by
  cases cmd with
  | none =>
      simp only [generateResponse] at h
      rcases noCommandResponse_ok_some fs stats _ h with ⟨d, hd⟩ | ⟨items, hi⟩ <;> simp_all
  | some c =>
      simp only [generateResponse] at h
      split_ifs at h with h0 h1 h2 h3 h4
      · rcases noCommandResponse_ok_some fs stats _ h with ⟨d, hd⟩ | ⟨items, hi⟩ <;> simp_all
      · rcases readIfFile_ok_some fs stats _ h with ⟨d, hd⟩
        simp_all
      · rcases readIfDir_ok_some fs stats false _ h with ⟨items, hi⟩
        simp_all
      · rcases readIfDir_ok_some fs stats true _ h with ⟨items, hi⟩
        simp_all
      · simp only [Except.ok.injEq] at h
        rcases statIfSupported_some stats _ h with ⟨s, hs⟩
        simp_all
      · simp only [Except.ok.injEq, Option.some.injEq, ApiResponse.error.injEq] at h
        exact ⟨h.1.symm, c, rfl, h.2.symm⟩

/-- When the path is a regular file the no-command fallback is exactly
the readfile path. -/
lemma noCommandResponse_of_file (fs : FS) (stats : Stats) (h : stats.isFile = true) :
    noCommandResponse fs stats = readIfFile fs stats := by
  unfold noCommandResponse readIfFile
  rw [h]
  simp only [if_true]
  cases fs.readFile <;> rfl

/-- When the path is not a regular file the no-command fallback is
exactly the readdir path. -/
lemma noCommandResponse_of_not_file (fs : FS) (stats : Stats) (h : stats.isFile = false) :
    noCommandResponse fs stats = readIfDir fs stats false := by
  unfold noCommandResponse readIfFile
  rw [h]
  simp

-- Claim theorems.

/-- C1: when the initial stat of the resolved path fails, the handler
responds HTTP 404 with empty body if the error code is the not-found
code ENOENT, and HTTP 500 with empty body for any other error code,
whatever command (or no command) was requested. -/
theorem C1_stat_failure_status (fs : FS) (cmd : Option String) (e : FsError)
    (h : fs.stat = .error e) :
    (e.code = "ENOENT" → handle fs cmd = ⟨404, Body.empty⟩) ∧
    (e.code ≠ "ENOENT" → handle fs cmd = ⟨500, Body.empty⟩) := by
  constructor <;> intro hc <;> simp [handle, h, hc]

/-- Witness for C1 at a concrete missing path. -/
theorem C1_stat_failure_status_witness :
    fsMissing.stat = .error ⟨"ENOENT"⟩ ∧
    (((FsError.mk "ENOENT").code = "ENOENT" →
        handle fsMissing none = ⟨404, Body.empty⟩) ∧
     ((FsError.mk "ENOENT").code ≠ "ENOENT" →
        handle fsMissing none = ⟨500, Body.empty⟩)) :=
  ⟨rfl, C1_stat_failure_status fsMissing none ⟨"ENOENT"⟩ rfl⟩

/-- C2: after a successful stat, the no-command request behaves exactly
like `command=readfile` on a regular file, exactly like
`command=readdir` on a directory (file tried first), and yields the
bare 500 (no envelope) when the path is neither. -/
theorem C2_no_command_fallback (fs : FS) (stats : Stats) (h : fs.stat = .ok stats) :
    (stats.isFile = true → handle fs none = handle fs (some "readfile")) ∧
    (stats.isFile = false → stats.isDirectory = true →
      handle fs none = handle fs (some "readdir")) ∧
    (stats.isFile = false → stats.isDirectory = false →
      handle fs none = ⟨500, Body.empty⟩) := by
  refine ⟨fun hf => ?_, fun hf hd => ?_, fun hf hd => ?_⟩
  · simp [handle, h, generateResponse, noCommandResponse_of_file fs stats hf]
  · simp [handle, h, generateResponse, noCommandResponse_of_not_file fs stats hf]
  · simp [handle, h, generateResponse, noCommandResponse_of_not_file fs stats hf,
      readIfDir, hd]

/-- Witness for C2 at a concrete regular file. -/
theorem C2_no_command_fallback_witness :
    fsFile.stat = .ok statsFile ∧
    ((statsFile.isFile = true → handle fsFile none = handle fsFile (some "readfile")) ∧
     (statsFile.isFile = false → statsFile.isDirectory = true →
       handle fsFile none = handle fsFile (some "readdir")) ∧
     (statsFile.isFile = false → statsFile.isDirectory = false →
       handle fsFile none = ⟨500, Body.empty⟩)) :=
  ⟨rfl, C2_no_command_fallback fsFile statsFile rfl⟩

/-- C9: an error thrown by the read or list step after a successful stat
is caught by the same outer catch as stat errors: ENOENT maps to 404
with empty body, anything else to 500 with empty body; `handle` is a
total function, so no request escapes unhandled. -/
theorem C9_read_errors_caught (fs : FS) (stats : Stats) (cmd : Option String)
    (e : FsError) (h : fs.stat = .ok stats)
    (hgen : generateResponse fs stats cmd = .error e) :
    (e.code = "ENOENT" → handle fs cmd = ⟨404, Body.empty⟩) ∧
    (e.code ≠ "ENOENT" → handle fs cmd = ⟨500, Body.empty⟩) := by
  constructor <;> intro hc <;> simp [handle, h, hgen, hc]

/-- Witness for C9: a file whose stat succeeds but whose read rejects
with EACCES is answered with a bare 500. -/
theorem C9_read_errors_caught_witness :
    fsReadFail.stat = .ok statsFile ∧
    generateResponse fsReadFail statsFile (some "readfile") = .error ⟨"EACCES"⟩ ∧
    (((FsError.mk "EACCES").code = "ENOENT" →
        handle fsReadFail (some "readfile") = ⟨404, Body.empty⟩) ∧
     ((FsError.mk "EACCES").code ≠ "ENOENT" →
        handle fsReadFail (some "readfile") = ⟨500, Body.empty⟩)) :=
  ⟨rfl, rfl, C9_read_errors_caught fsReadFail statsFile (some "readfile") ⟨"EACCES"⟩ rfl rfl⟩

/-- C10: a `command` query parameter equal to the empty string is falsy
for the truthiness test and is handled exactly like an absent command. -/
theorem C10_empty_command_like_absent (fs : FS) :
    handle fs (some "") = handle fs none := by
  cases hstat : fs.stat <;> simp [handle, hstat, generateResponse]

/-- Any plain-text body the handler ever sends comes with status 500 and
reads `Unknown command` followed by the requested command value. -/
lemma handle_text_body (g : FS) (cmd : Option String) (m : String)
    (hbody : (handle g cmd).body = Body.text m) :
    (handle g cmd).status = 500 ∧ ∃ u, cmd = some u ∧ m = "Unknown command " ++ u := by
  cases hstat : g.stat with
  | error e =>
      by_cases hc : e.code = "ENOENT" <;> simp [handle, hstat, hc] at hbody
  | ok stats =>
      cases hgen : generateResponse g stats cmd with
      | error e =>
          by_cases hc : e.code = "ENOENT" <;> simp [handle, hstat, hgen, hc] at hbody
      | ok o =>
          rcases o with _ | r
          · simp [handle, hstat, hgen] at hbody
          · rcases r with d | items | s | ⟨code, msg⟩
            · simp [handle, hstat, hgen] at hbody
            · simp [handle, hstat, hgen] at hbody
            · simp [handle, hstat, hgen] at hbody
            · rcases msg with _ | m'
              · simp [handle, hstat, hgen] at hbody
              · obtain ⟨h500, u, hu, hm⟩ :=
                  generateResponse_error_envelope g stats cmd code (some m') hgen
                simp [handle, hstat, hgen] at hbody ⊢
                refine ⟨h500, u, hu, ?_⟩
                rw [← hbody]
                exact Option.some.inj hm

/-- C3 fails as stated: the empty string is a command string that is none
of the four recognized ones, yet on an existing regular file it is
treated as the no-command case and answered 200 with a File envelope,
not 500 with `Unknown command `. -/
theorem C3_unknown_command_cex :
    fsFile.stat = .ok statsFile ∧
    "" ≠ "readfile" ∧ "" ≠ "readdir" ∧ "" ≠ "readdir-detailed" ∧ "" ≠ "stat" ∧
    handle fsFile (some "") = ⟨200, Body.envelope (ApiResponse.file [104, 105])⟩ ∧
    handle fsFile (some "") ≠ ⟨500, Body.text ("Unknown command " ++ "")⟩ := by
  refine ⟨rfl, by decide, by decide, by decide, by decide, by decide, by decide⟩

/-- C3 (amended: the command value must also be non-empty, since the
empty string is falsy and takes the no-command branch): on an existing
path, a non-empty command that is none of the four recognized ones is
answered 500 with plain-text body `Unknown command ` plus the value, and
this is the only outcome of any request that carries a message body. -/
theorem C3_unknown_command (fs : FS) (stats : Stats) (c : String)
    (h : fs.stat = .ok stats) (hne : c ≠ "")
    (h1 : c ≠ "readfile") (h2 : c ≠ "readdir")
    (h3 : c ≠ "readdir-detailed") (h4 : c ≠ "stat") :
    handle fs (some c) = ⟨500, Body.text ("Unknown command " ++ c)⟩ ∧
    ∀ (g : FS) (cmd : Option String) (m : String),
      (handle g cmd).body = Body.text m →
      (handle g cmd).status = 500 ∧ ∃ u, cmd = some u ∧ m = "Unknown command " ++ u := by
  constructor
  · simp [handle, h, generateResponse, hne, h1, h2, h3, h4]
  · exact handle_text_body

/-- Witness for C3 (amended) with the command `bogus` on a regular file. -/
theorem C3_unknown_command_witness :
    fsFile.stat = .ok statsFile ∧
    "bogus" ≠ "" ∧ "bogus" ≠ "readfile" ∧ "bogus" ≠ "readdir" ∧
    "bogus" ≠ "readdir-detailed" ∧ "bogus" ≠ "stat" ∧
    (handle fsFile (some "bogus") = ⟨500, Body.text ("Unknown command " ++ "bogus")⟩ ∧
     ∀ (g : FS) (cmd : Option String) (m : String),
       (handle g cmd).body = Body.text m →
       (handle g cmd).status = 500 ∧ ∃ u, cmd = some u ∧ m = "Unknown command " ++ u) :=
  ⟨rfl, by decide, by decide, by decide, by decide, by decide,
   C3_unknown_command fsFile statsFile "bogus" rfl (by decide) (by decide) (by decide)
     (by decide) (by decide)⟩

/-- C4: `command=readdir-detailed` on a directory answers 200 with a
Directory envelope whose items are exactly the entries of the underlying
listing that are a plain file or a plain directory, in listing order,
projected to (name, dir); every other entry kind is dropped. -/
theorem C4_readdir_detailed (fs : FS) (stats : Stats) (dirents : List Dirent)
    (h : fs.stat = .ok stats) (hd : stats.isDirectory = true)
    (hr : fs.readdirWithFileTypes = .ok dirents) :
    handle fs (some "readdir-detailed") =
      ⟨200, Body.envelope (ApiResponse.dir (DirItems.detailed
        ((dirents.filter (fun d => d.isFile || d.isDirectory)).map
          (fun d => SimpleDirent.mk d.name d.isDirectory))))⟩ := by
  simp [handle, generateResponse, readIfDir, h, hd, hr, detailedItems_eq_filter_map]

/-- Witness for C4 on a directory holding a file, a subdirectory and a
socket; the socket is dropped. -/
theorem C4_readdir_detailed_witness :
    fsDir.stat = .ok statsDir ∧ statsDir.isDirectory = true ∧
    fsDir.readdirWithFileTypes =
      .ok [⟨"a.txt", true, false⟩, ⟨"sub", false, true⟩, ⟨"sock", false, false⟩] ∧
    handle fsDir (some "readdir-detailed") =
      ⟨200, Body.envelope (ApiResponse.dir (DirItems.detailed
        ((([⟨"a.txt", true, false⟩, ⟨"sub", false, true⟩,
            ⟨"sock", false, false⟩] : List Dirent).filter
              (fun d => d.isFile || d.isDirectory)).map
          (fun d => SimpleDirent.mk d.name d.isDirectory))))⟩ :=
  ⟨rfl, rfl, rfl, C4_readdir_detailed fsDir statsDir _ rfl rfl rfl⟩

/-- C5: after a successful stat, `command=stat` answers 200 with a Stats
envelope exactly when the path is a regular file or a directory, and a
bare 500 (no envelope) for any other object type. -/
theorem C5_stat_envelope_iff (fs : FS) (stats : Stats) (h : fs.stat = .ok stats) :
    ((stats.isFile || stats.isDirectory) = true →
      handle fs (some "stat") =
        ⟨200, Body.envelope (ApiResponse.stats ⟨stats, stats.isDirectory⟩)⟩) ∧
    ((stats.isFile || stats.isDirectory) = false →
      handle fs (some "stat") = ⟨500, Body.empty⟩) := by
  constructor <;> intro hc <;> simp [handle, h, generateResponse, statIfSupported, hc]

/-- Witness for C5 at a socket-like object: neither file nor directory,
answered with a bare 500. -/
theorem C5_stat_envelope_iff_witness :
    fsOther.stat = .ok statsOther ∧
    (((statsOther.isFile || statsOther.isDirectory) = true →
       handle fsOther (some "stat") =
         ⟨200, Body.envelope (ApiResponse.stats ⟨statsOther, statsOther.isDirectory⟩)⟩) ∧
     ((statsOther.isFile || statsOther.isDirectory) = false →
       handle fsOther (some "stat") = ⟨500, Body.empty⟩)) :=
  ⟨rfl, C5_stat_envelope_iff fsOther statsOther rfl⟩

/-- C6: `command=readfile` on a regular file answers 200 with a File
envelope holding the exact bytes read; on any existing path that is not
a regular file it produces no envelope and the handler answers a bare
500. -/
theorem C6_readfile_bytes (fs : FS) (stats : Stats) (data : List Nat)
    (h : fs.stat = .ok stats) :
    (stats.isFile = true → fs.readFile = .ok data →
      handle fs (some "readfile") = ⟨200, Body.envelope (ApiResponse.file data)⟩) ∧
    (stats.isFile = false → handle fs (some "readfile") = ⟨500, Body.empty⟩) := by
  constructor
  · intro hf hr
    simp [handle, h, generateResponse, readIfFile, hf, hr]
  · intro hf
    simp [handle, h, generateResponse, readIfFile, hf]

/-- Witness for C6 on a regular file holding the bytes "hi". -/
theorem C6_readfile_bytes_witness :
    fsFile.stat = .ok statsFile ∧
    ((statsFile.isFile = true → fsFile.readFile = .ok [104, 105] →
       handle fsFile (some "readfile") =
         ⟨200, Body.envelope (ApiResponse.file [104, 105])⟩) ∧
     (statsFile.isFile = false →
       handle fsFile (some "readfile") = ⟨500, Body.empty⟩)) :=
  ⟨rfl, C6_readfile_bytes fsFile statsFile [104, 105] rfl⟩

/-- C7: `handle` is a function, so each request gets exactly one status
and body; the status is always 200, 404 or 500, and it is 200 exactly
when the body is a success envelope. -/
theorem C7_status_partition (fs : FS) (cmd : Option String) :
    ((handle fs cmd).status = 200 ∨ (handle fs cmd).status = 404 ∨
     (handle fs cmd).status = 500) ∧
    ((handle fs cmd).status = 200 ↔ ∃ r, (handle fs cmd).body = Body.envelope r) := by
  cases hstat : fs.stat with
  | error e =>
      by_cases hc : e.code = "ENOENT" <;> simp [handle, hstat, hc]
  | ok stats =>
      cases hgen : generateResponse fs stats cmd with
      | error e =>
          by_cases hc : e.code = "ENOENT" <;> simp [handle, hstat, hgen, hc]
      | ok o =>
          rcases o with _ | r
          · simp [handle, hstat, hgen]
          · rcases r with d | items | s | ⟨code, msg⟩
            · simp [handle, hstat, hgen]
            · simp [handle, hstat, hgen]
            · simp [handle, hstat, hgen]
            · obtain ⟨h500, u, hu, hm⟩ :=
                generateResponse_error_envelope fs stats cmd code msg hgen
              subst h500
              rcases msg with _ | m'
              · simp [handle, hstat, hgen]
              · simp [handle, hstat, hgen]

/-- C8: `command=stat` on a file or directory answers 200 with a Stats
envelope that carries the stat metadata unchanged plus the derived
boolean `dir` field, true exactly when the path is a directory and in
particular false for a regular file. -/
theorem C8_stats_derived_flag (fs : FS) (stats : Stats)
    (h : fs.stat = .ok stats) (hfd : (stats.isFile || stats.isDirectory) = true) :
    handle fs (some "stat") =
      ⟨200, Body.envelope (ApiResponse.stats (SimpleStats.mk stats stats.isDirectory))⟩ ∧
    (SimpleStats.mk stats stats.isDirectory).toStats = stats ∧
    ((SimpleStats.mk stats stats.isDirectory).dir = true ↔ stats.isDirectory = true) ∧
    (stats.isFile = true → stats.isDirectory = false →
      (SimpleStats.mk stats stats.isDirectory).dir = false) := by
  refine ⟨?_, rfl, Iff.rfl, fun _ hd => by simp [hd]⟩
  simp [handle, h, generateResponse, statIfSupported, hfd]

/-- Witness for C8 on a regular file: the derived flag is false. -/
theorem C8_stats_derived_flag_witness :
    fsFile.stat = .ok statsFile ∧ (statsFile.isFile || statsFile.isDirectory) = true ∧
    (handle fsFile (some "stat") =
      ⟨200, Body.envelope (ApiResponse.stats (SimpleStats.mk statsFile statsFile.isDirectory))⟩ ∧
     (SimpleStats.mk statsFile statsFile.isDirectory).toStats = statsFile ∧
     ((SimpleStats.mk statsFile statsFile.isDirectory).dir = true ↔
        statsFile.isDirectory = true) ∧
     (statsFile.isFile = true → statsFile.isDirectory = false →
       (SimpleStats.mk statsFile statsFile.isDirectory).dir = false)) :=
  ⟨rfl, rfl, C8_stats_derived_flag fsFile statsFile rfl rfl⟩
